import Mathlib

/-!
Verification development for the HTML→XML test-report converter (`parser.py`).

The program is shallowly embedded: pure Python string manipulation is
translated to Lean functions on `String`/`List Char`; the dictionary built
from the HTML table is an insertion-ordered association list; `datetime`
values are naive timestamps represented as microseconds since
0001-01-01T00:00:00 (proleptic Gregorian, matching Python's `toordinal`
epoch); `float` literals are modelled by their exact decimal value, a pair
`num · 10 ^ exp` (finite decimal literals; `inf`/`nan`/underscores are
outside the modelled input space, and none of the inputs considered here
use them); fallible code returns an
explicit result type, with an extra constructor for the uncaught
`IndexError` that `html_to_xml` can raise.

BeautifulSoup (a third-party library) is modelled abstractly: an HTML
document is represented by the list of its table rows, each row being the
list of the `.text` contents of its `td` cells, which is exactly the data
the extraction loop in `html_to_xml` consumes.  Filesystem effects in
`main` are modelled by an environment of oracles saying which operations
succeed, and `main` returns its outcome together with the trace of
filesystem-mutating events it performed.
-/

/-- Python `ExitCode` enum from `parser.py`. -/
inductive ExitCode
  | SUCCESS
  | CREATE_DIR_ERROR
  | READ_HTML_ERROR
  | PARSE_XML_ERROR
  | WRITE_XML_ERROR
  | ARCHIVE_ERROR
deriving DecidableEq

/-- Numeric value of each `ExitCode` member (the process exit status). -/
def ExitCode.toCode : ExitCode → Nat
  | .SUCCESS => 0
  | .CREATE_DIR_ERROR => 1
  | .READ_HTML_ERROR => 2
  | .PARSE_XML_ERROR => 3
  | .WRITE_XML_ERROR => 4
  | .ARCHIVE_ERROR => 5

/-- The module-level constant `dir_for_archiv = "arhiiv"`. -/
def dir_for_archiv : String := "arhiiv"

/-- Characters treated as whitespace by Python's `str.strip()` / `str.split()`
(ASCII fragment: space, tab, newline, carriage return, vertical tab, form feed). -/
def pyIsSpace (c : Char) : Bool :=
  c == ' ' || c == '\t' || c == '\n' || c == '\r' || c.toNat == 11 || c.toNat == 12

/-- Python `str.strip()` (no argument): remove leading and trailing whitespace. -/
def pyStrip (s : String) : String :=
  ⟨((s.data.dropWhile pyIsSpace).reverse.dropWhile pyIsSpace).reverse⟩

/-- Python `str.replace('.', ':')`: map every period to a colon. -/
def mapDotsToColons (s : String) : String :=
  ⟨s.data.map fun c => if c == '.' then ':' else c⟩

/-- Python `str.replace(':', '')`: delete every colon. -/
def removeColons (s : String) : String :=
  ⟨s.data.filter fun c => c != ':'⟩

/-- One step of whitespace splitting, consumed by a right fold:
accumulates the current word and the list of words to the right. -/
def wordsStep (c : Char) (acc : List Char × List (List Char)) :
    List Char × List (List Char) :=
  if pyIsSpace c then ([], if acc.1 = [] then acc.2 else acc.1 :: acc.2)
  else (c :: acc.1, acc.2)

/-- Python `str.split()` (no argument): split on runs of whitespace,
discarding empty pieces. -/
def pyWords (s : String) : List String :=
  let p := s.data.foldr wordsStep ([], [])
  (if p.1 = [] then p.2 else p.1 :: p.2).map fun cs => ⟨cs⟩

/-- Test whether `pat` is an initial segment of the second list (helper for
substring search). -/
def startsWithChars : List Char → List Char → Bool
  | [], _ => true
  | _ :: _, [] => false
  | p :: ps, c :: cs => p == c && startsWithChars ps cs

/-- Substring occurrence test on character lists. -/
def hasSubstrChars (pat : List Char) : List Char → Bool
  | [] => startsWithChars pat []
  | c :: cs => startsWithChars pat (c :: cs) || hasSubstrChars pat cs

/-- Python `pat in s` for strings: substring containment. -/
def pyContains (s pat : String) : Bool :=
  hasSubstrChars pat.data s.data

/-- Insertion-ordered dictionary, the embedding of the Python `dict`
built by the extraction loop. -/
abbrev Dict := List (String × String)

/-- Python `d[k] = v`: overwrite in place if the key exists, else append. -/
def dictInsert (d : Dict) (k v : String) : Dict :=
  if d.any (fun p => p.1 == k) then
    d.map fun p => if p.1 == k then (k, v) else p
  else d ++ [(k, v)]

/-- Python `d.get(k)`: value of the (unique) entry for `k`, if any. -/
def dictGet (d : Dict) (k : String) : Option String :=
  (d.find? fun p => p.1 == k).map (·.2)

/-- Python `k in d`. -/
def dictContains (d : Dict) (k : String) : Bool :=
  d.any fun p => p.1 == k

/-- Python `d.get(k, dflt)`. -/
def getFieldD (d : Dict) (k dflt : String) : String :=
  (dictGet d k).getD dflt

/-- Python `d.get(k, '')`. -/
def getField (d : Dict) (k : String) : String :=
  getFieldD d k ""

/-- The body of the extraction loop in `html_to_xml` (lines 76–80): a row
with exactly two cells contributes `cells[0].text.strip().replace(':','')`
as key and `cells[1].text.strip()` as value; other rows are ignored. -/
def extractRow (d : Dict) (row : List String) : Dict :=
  match row with
  | [c0, c1] => dictInsert d (removeColons (pyStrip c0)) (pyStrip c1)
  | _ => d

/-- The full extraction loop: fold `extractRow` over the document's rows in
document order (later duplicate keys overwrite earlier values). -/
def extractFields (rows : List (List String)) : Dict :=
  rows.foldl extractRow []

/-- Numeric value of a digit character. -/
def digitVal (c : Char) : Nat := c.toNat - 48

/-- Value of a digit string, most significant first. -/
def digitsToNat (ds : List Char) : Nat :=
  ds.foldl (fun a c => a * 10 + digitVal c) 0

/-- An exact decimal value `num · 10 ^ exp`, the embedding of a finite
Python float literal (the literal's exact decimal value). -/
structure Dec where
  num : ℤ
  exp : ℤ
deriving DecidableEq

/-- Parse an unsigned decimal mantissa: `digits [. digits]` or `. digits`.
Returns the digits' value, the number of fractional digits, and the
remaining characters (the mantissa's value is `val / 10 ^ fracLen`). -/
def parseMantissa (cs : List Char) : Option ((Nat × Nat) × List Char) :=
  let (ip, r1) := cs.span Char.isDigit
  match r1 with
  | '.' :: r2 =>
      let (fp, r3) := r2.span Char.isDigit
      if ip = [] ∧ fp = [] then none
      else some ((digitsToNat ip * 10 ^ fp.length + digitsToNat fp, fp.length), r3)
  | _ => if ip = [] then none else some ((digitsToNat ip, 0), r1)

/-- Parse an optionally signed digit string (the exponent of a float literal). -/
def parseSignedDigits (cs : List Char) : Option (ℤ × List Char) :=
  let p : ℤ × List Char :=
    match cs with
    | '+' :: r => (1, r)
    | '-' :: r => (-1, r)
    | _ => (1, cs)
  let (ds, r2) := p.2.span Char.isDigit
  if ds = [] then none else some (p.1 * (digitsToNat ds : ℤ), r2)

/-- Parse the optional exponent part `([eE] [+-]? digits)?` of a float literal. -/
def parseExpPart (cs : List Char) : Option (ℤ × List Char) :=
  match cs with
  | 'e' :: r => parseSignedDigits r
  | 'E' :: r => parseSignedDigits r
  | _ => some (0, cs)

/-- Python `float(s)` on finite decimal literals, as an exact decimal:
optional surrounding whitespace, optional sign, decimal mantissa, optional
exponent.  `None` models `ValueError`. -/
def pyFloat (s : String) : Option Dec :=
  let cs := s.data.dropWhile pyIsSpace
  let p : ℤ × List Char :=
    match cs with
    | '+' :: r => (1, r)
    | '-' :: r => (-1, r)
    | _ => (1, cs)
  match parseMantissa p.2 with
  | none => none
  | some ((v, k), r) =>
    match parseExpPart r with
    | none => none
    | some (e, r2) =>
      if r2.dropWhile pyIsSpace = [] then some ⟨p.1 * (v : ℤ), e - (k : ℤ)⟩ else none

/-- Candidate matches for strptime's `%H` (regex `2[0-3]|[0-1]\d|\d`),
in the regex's alternation order. -/
def hourCands (cs : List Char) : List (Nat × List Char) :=
  (match cs with
   | c1 :: c2 :: r =>
     (if c1 == '2' && c2.isDigit && digitVal c2 ≤ 3 then [(20 + digitVal c2, r)] else []) ++
     (if (c1 == '0' || c1 == '1') && c2.isDigit then [(digitVal c1 * 10 + digitVal c2, r)] else [])
   | _ => []) ++
  (match cs with
   | c :: r => if c.isDigit then [(digitVal c, r)] else []
   | _ => [])

/-- Candidate matches for strptime's `%M` (regex `[0-5]\d|\d`). -/
def minuteCands (cs : List Char) : List (Nat × List Char) :=
  (match cs with
   | c1 :: c2 :: r =>
     if c1.isDigit && digitVal c1 ≤ 5 && c2.isDigit then
       [(digitVal c1 * 10 + digitVal c2, r)] else []
   | _ => []) ++
  (match cs with
   | c :: r => if c.isDigit then [(digitVal c, r)] else []
   | _ => [])

/-- Candidate matches for strptime's `%S` (regex `6[0-1]|[0-5]\d|\d`). -/
def secondCands (cs : List Char) : List (Nat × List Char) :=
  (match cs with
   | c1 :: c2 :: r =>
     (if c1 == '6' && (c2 == '0' || c2 == '1') then [(60 + digitVal c2, r)] else []) ++
     (if c1.isDigit && digitVal c1 ≤ 5 && c2.isDigit then
       [(digitVal c1 * 10 + digitVal c2, r)] else [])
   | _ => []) ++
  (match cs with
   | c :: r => if c.isDigit then [(digitVal c, r)] else []
   | _ => [])

/-- Regex-style backtracking: try each candidate in order with the
continuation, keeping the first success. -/
def firstSome {α β : Type} (cands : List (α × List Char)) (k : α → List Char → Option β) :
    Option β :=
  match cands with
  | [] => none
  | (v, r) :: t =>
    match k v r with
    | some x => some x
    | none => firstSome t k

/-- Exactly four digits for strptime's `%Y` (regex `\d\d\d\d`). -/
def parse4Digits (cs : List Char) : Option (Nat × List Char) :=
  match cs with
  | a :: b :: c :: d :: r =>
    if a.isDigit && b.isDigit && c.isDigit && d.isDigit then
      some (digitsToNat [a, b, c, d], r)
    else none
  | _ => none

/-- Embedding of `datetime.strptime(s, '%Y %H:%M:%S')`: match the whole string against
`\d\d\d\d (2[0-3]|[0-1]\d|\d):([0-5]\d|\d):(6[0-1]|[0-5]\d|\d)` with the
regex's left-to-right backtracking, then apply `datetime`'s constructor
checks (`MINYEAR ≤ year`, `second ≤ 59`; month and day default to 1).
`None` models the `ValueError` that the caller catches. -/
def strptimeYHMS (s : String) : Option (Nat × Nat × Nat × Nat) :=
  match parse4Digits s.data with
  | none => none
  | some (y, r0) =>
    match r0 with
    | ' ' :: r1 =>
      firstSome (hourCands r1) fun h r2 =>
        match r2 with
        | ':' :: r3 =>
          firstSome (minuteCands r3) fun m r4 =>
            match r4 with
            | ':' :: r5 =>
              firstSome (secondCands r5) fun sec r6 =>
                if r6 = [] ∧ 1 ≤ y ∧ sec ≤ 59 then some (y, h, m, sec) else none
            | _ => none
        | _ => none
    | _ => none

/-- Days in the proleptic Gregorian calendar strictly before January 1 of
year `y` (so `daysBeforeYear y + 1` is Python's `date(y,1,1).toordinal()`). -/
def daysBeforeYear (y : Nat) : Nat :=
  let p := y - 1
  365 * p + p / 4 - p / 100 + p / 400

/-- Naive datetime `(y, 1, 1, h, m, s)` as microseconds since
0001-01-01T00:00:00. -/
def microOfYHMS (y h m s : Nat) : ℤ :=
  ((daysBeforeYear y * 86400 + h * 3600 + m * 60 + s : Nat) : ℤ) * 1000000

/-- The result of `datetime.strptime(s, '%Y %H:%M:%S')` as a microsecond timestamp. -/
def strptimeMicro (s : String) : Option ℤ :=
  (strptimeYHMS s).map fun t => microOfYHMS t.1 t.2.1 t.2.2.1 t.2.2.2

/-- Gregorian date from a day count since 0001-01-01 (civil-from-days). -/
def civilFromDays (n : Nat) : Nat × Nat × Nat :=
  let z := n + 306
  let era := z / 146097
  let doe := z % 146097
  let yoe := (doe - doe / 1460 + doe / 36524 - doe / 146096) / 365
  let doy := doe - (365 * yoe + yoe / 4 - yoe / 100)
  let mp := (5 * doy + 2) / 153
  let d := doy - (153 * mp + 2) / 5 + 1
  let m := if mp < 10 then mp + 3 else mp - 9
  (yoe + era * 400 + (if m ≤ 2 then 1 else 0), m, d)

/-- Zero-padded decimal rendering of width `w`. -/
def padNum (w n : Nat) : String :=
  let s := toString n
  ⟨List.replicate (w - s.length) '0'⟩ ++ s

/-- Embedding of `datetime.isoformat()` on a naive timestamp (microseconds since
0001-01-01T00:00:00): `YYYY-MM-DDTHH:MM:SS[.ffffff]`.  The datetimes of
this program are naive (`tzinfo is None`), so no UTC offset is ever
appended. -/
def pyIsoformat (t : ℤ) : String :=
  let tn := t.toNat
  let days := tn / 86400000000
  let rem := tn % 86400000000
  let us := rem % 1000000
  let secs := rem / 1000000
  let c := civilFromDays days
  padNum 4 c.1 ++ "-" ++ padNum 2 c.2.1 ++ "-" ++ padNum 2 c.2.2 ++ "T" ++
  padNum 2 (secs / 3600) ++ ":" ++ padNum 2 (secs % 3600 / 60) ++ ":" ++
  padNum 2 (secs % 60) ++ (if us = 0 then "" else "." ++ padNum 6 us)

/-- Round `n / m` (with `m > 0`) to the nearest integer, ties to even:
the rounding `timedelta` applies when converting seconds to microseconds. -/
def roundHalfEvenDiv (n : ℤ) (m : ℕ) : ℤ :=
  let q := n.ediv (m : ℤ)
  let r := n.emod (m : ℤ)
  if 2 * r < (m : ℤ) then q
  else if (m : ℤ) < 2 * r then q + 1
  else if q % 2 = 0 then q else q + 1

/-- Embedding of `timedelta(seconds=d)` for an exact decimal seconds value `d`, as a
whole number of microseconds (`d · 10⁶`, rounded half-to-even). -/
def timedeltaMicro (d : Dec) : ℤ :=
  let e := d.exp + 6
  if 0 ≤ e then d.num * 10 ^ e.toNat
  else roundHalfEvenDiv d.num (10 ^ (-e).toNat)

/-- The validated/derived report data computed by `html_to_xml`
(the spec's ReportRecord): verbatim strings, PASS/FAIL status, and naive
start/end timestamps in microseconds. -/
structure Record where
  station_id : String
  serial_number : String
  sequence_name : String
  status : String
  startMicro : ℤ
  endMicro : ℤ
deriving DecidableEq

/-- The cause of a `None` return from `html_to_xml`: the missing-field log
(line 94) or the caught `ValueError` log (line 104). -/
inductive ConvErr
  | missingField (name : String)
  | parseError
deriving DecidableEq

/-- Outcome of `html_to_xml`: a value, a `None` return with its logged
cause, or an uncaught `IndexError` (which is outside the
`except (ValueError, KeyError)` clause and escapes the function). -/
inductive Conv (α : Type)
  | ok (a : α)
  | err (e : ConvErr)
  | exnIndexError
deriving DecidableEq

/-- Whether a `Conv` result is `Conv.ok`, as a Boolean. -/
def convIsOk {α : Type} : Conv α → Bool
  | .ok _ => true
  | _ => false

/-- The six required keys, in the order the validation loop scans them. -/
def requiredFields : List String :=
  ["Station ID", "Serial Number", "Sequence Name", "UUT Result", "Date", "Time"]

/-- The data-processing core of `html_to_xml` (lines 83–105), in source
order: `data.get('Execution Time', '0 seconds').split()[0]` (which raises
`IndexError` on an empty split) runs before the required-field loop; the
loop returns `None` at the first missing key; then inside the `try`:
`float` (a `ValueError` is caught → `None`), the PASS/FAIL status,
`date_str.split()[-1]` (an `IndexError` escapes the `except` clause), and
`strptime` on the composite string (a `ValueError` is caught → `None`);
finally `end_time = start_time + timedelta(seconds=execution_time)`. -/
def html_to_record (rows : List (List String)) : Conv Record :=
  match pyWords (getFieldD (extractFields rows) "Execution Time" "0 seconds") with
  | [] => Conv.exnIndexError
  | execTok :: _ =>
    match requiredFields.find? (fun f => !dictContains (extractFields rows) f) with
    | some f => Conv.err (ConvErr.missingField f)
    | none =>
      match pyFloat execTok with
      | none => Conv.err ConvErr.parseError
      | some ex =>
        match (pyWords (getField (extractFields rows) "Date")).getLast? with
        | none => Conv.exnIndexError
        | some lastTok =>
          match strptimeMicro (lastTok ++ " " ++
              mapDotsToColons (getField (extractFields rows) "Time")) with
          | none => Conv.err ConvErr.parseError
          | some start =>
            Conv.ok {
              station_id := getField (extractFields rows) "Station ID",
              serial_number := getField (extractFields rows) "Serial Number",
              sequence_name := getField (extractFields rows) "Sequence Name",
              status :=
                if pyContains (getField (extractFields rows) "UUT Result") "Passed"
                then "PASS" else "FAIL",
              startMicro := start,
              endMicro := start + timedeltaMicro ex }

/-- An XML element: tag, attributes in order, optional text, children. -/
structure XmlElem where
  tag : String
  attrs : List (String × String)
  text : Option String
  children : List XmlElem

/-- A child element carrying only text. -/
def leafElem (tag txt : String) : XmlElem :=
  ⟨tag, [], some txt, []⟩

/-- The fixed attributes of the root element (lines 108–114). -/
def rootAttrs : List (String × String) :=
  [("xmlns:xsi", "http://www.w3.org/2001/XMLSchema-instance"),
   ("xmlns:xsd", "http://www.w3.org/2001/XMLSchema"),
   ("Version", "2.0"),
   ("TesterType", "KONE FCT"),
   ("Testerlocation", "en-US")]

/-- The XML construction of `html_to_xml` (lines 108–125). -/
def buildXml (r : Record) : XmlElem :=
  { tag := "UGSTesterCom", attrs := rootAttrs, text := none,
    children := [
      leafElem "Barcode" r.serial_number,
      leafElem "TesterName" r.station_id,
      leafElem "StationName" r.station_id,
      leafElem "Station" r.station_id,
      leafElem "TestProgram" r.sequence_name,
      leafElem "Status" r.status,
      leafElem "StartTime" (pyIsoformat r.startMicro),
      leafElem "EndTime" (pyIsoformat r.endMicro),
      ⟨"TestSteps", [], none, []⟩] }

/-- Embedding of `html_to_xml`: the data-processing core followed by the XML build. -/
def html_to_xml (rows : List (List String)) : Conv XmlElem :=
  match html_to_record rows with
  | .ok r => .ok (buildXml r)
  | .err e => .err e
  | .exnIndexError => .exnIndexError

/-- Embedding of `posixpath.dirname`: the part before the final slash, with trailing
slashes stripped unless the result is all slashes. -/
def posixDirname (p : String) : String :=
  let cs := p.data
  if cs.all (fun c => c != '/') then ""
  else
    let headRev := cs.reverse.dropWhile (fun c => c != '/')
    if headRev.all (fun c => c == '/') then ⟨headRev.reverse⟩
    else ⟨(headRev.dropWhile (fun c => c == '/')).reverse⟩

/-- Embedding of `posixpath.basename`: the part after the final slash. -/
def posixBasename (p : String) : String :=
  ⟨(p.data.reverse.takeWhile (fun c => c != '/')).reverse⟩

/-- Embedding of `posixpath.join` on two components. -/
def posixJoin (a b : String) : String :=
  if b.data.head? = some '/' then b
  else if a = "" ∨ a.data.getLast? = some '/' then a ++ b
  else a ++ "/" ++ b

/-- The root part of `posixpath.splitext`: split at the last dot of the
final component, unless every character before that dot in the final
component is itself a dot. -/
def splitextRoot (p : String) : String :=
  let rev := p.data.reverse
  let pre := rev.takeWhile fun c => c != '.' && c != '/'
  match rev.drop pre.length with
  | '.' :: rest =>
      if (rest.takeWhile fun c => c != '/').any (fun c => c != '.') then ⟨rest.reverse⟩
      else p
  | _ => p

/-- Line 212: `args.archive or os.path.join(os.path.dirname(os.path.dirname(
args.dir1)), dir_for_archiv)` — Python `or` also falls through on an empty
override string. -/
def resolveArchiveDir (archive : Option String) (dir1 : String) : String :=
  match archive with
  | some a =>
      if a = "" then posixJoin (posixDirname (posixDirname dir1)) dir_for_archiv
      else a
  | none => posixJoin (posixDirname (posixDirname dir1)) dir_for_archiv

/-- Filesystem-mutating actions `main` can perform, in order. -/
inductive Event
  | createdOutputDir (dir : String)
  | wroteXml (path : String)
  | createdArchiveDir (dir : String)
  | removedArchiveFile (path : String)
  | movedToArchive (src dst : String)
deriving DecidableEq

/-- How the process ends: a `return ExitCode…` from `main`, or an uncaught
exception propagating out of it. -/
inductive MainOutcome
  | exited (code : ExitCode)
  | uncaughtException
deriving DecidableEq

/-- Oracles for the filesystem operations of one run, plus the parsed
table rows of the source document (the BeautifulSoup abstraction). -/
structure Env where
  dir1 : String
  dir2 : String
  archive : Option String
  outputDirExists : Bool
  createOutputDirOk : Bool
  readResult : Option String
  rows : List (List String)
  writeOk : Bool
  archiveDirExists : Bool
  createArchiveDirOk : Bool
  archiveTargetExists : Bool
  removeOk : Bool
  moveOk : Bool

/-- Embedding of `read_html_file` (lines 27–50): `None` on `FileNotFoundError`, `None`
if the stripped content is empty, else the stripped content. -/
def read_html_file (env : Env) : Option String :=
  match env.readResult with
  | none => none
  | some c => if pyStrip c = "" then none else some (pyStrip c)

/-- Embedding of `main` (lines 165–234), in source order: create the output directory
if absent (exit 1 on failure) — this happens BEFORE the file is read;
read the source (exit 2 on failure); convert (exit 3 on a `None` result,
uncaught exception propagating on `IndexError`); write the XML (exit 4 on
`PermissionError`); resolve and create the archive directory (exit 1 on
failure); remove an existing archive copy and move the source (exit 5 on
failure); exit 0.  The second component is the trace of performed
filesystem mutations.  (Named `mainRun` because `main` is reserved in
Lean; it embeds the Python function `main`.) -/
def mainRun (env : Env) : MainOutcome × List Event :=
  if !env.outputDirExists && !env.createOutputDirOk then
    (.exited .CREATE_DIR_ERROR, [])
  else
    let ev1 : List Event :=
      if env.outputDirExists then [] else [Event.createdOutputDir env.dir2]
    let output_xml_file :=
      posixJoin env.dir2 (splitextRoot (posixBasename env.dir1) ++ ".xml")
    match read_html_file env with
    | none => (.exited .READ_HTML_ERROR, ev1)
    | some _ =>
      match html_to_xml env.rows with
      | .exnIndexError => (.uncaughtException, ev1)
      | .err _ => (.exited .PARSE_XML_ERROR, ev1)
      | .ok _ =>
        if !env.writeOk then (.exited .WRITE_XML_ERROR, ev1)
        else
          let ev2 := ev1 ++ [Event.wroteXml output_xml_file]
          let archive_dir := resolveArchiveDir env.archive env.dir1
          if !env.archiveDirExists && !env.createArchiveDirOk then
            (.exited .CREATE_DIR_ERROR, ev2)
          else
            let ev3 := ev2 ++
              (if env.archiveDirExists then [] else [Event.createdArchiveDir archive_dir])
            let target := posixJoin archive_dir (posixBasename env.dir1)
            if env.archiveTargetExists && !env.removeOk then
              (.exited .ARCHIVE_ERROR, ev3)
            else
              let ev4 := ev3 ++
                (if env.archiveTargetExists then [Event.removedArchiveFile target] else [])
              if !env.moveOk then (.exited .ARCHIVE_ERROR, ev4)
              else (.exited .SUCCESS, ev4 ++ [Event.movedToArchive env.dir1 archive_dir])

/-- A well-formed sample document: all six required fields, a passing
result, `Date` ending in the year token `2024`, and a 45-second execution
time. -/
def rowsOk : List (List String) :=
  [["Station ID", "S1"], ["Serial Number", "SN"], ["Sequence Name", "Seq"],
   ["UUT Result", "Passed"], ["Date", "Fri 2024"], ["Time", "13.05.00"],
   ["Execution Time", "45 seconds"]]

/-- The record `html_to_record` computes from `rowsOk`. -/
def recOk : Record :=
  { station_id := "S1", serial_number := "SN", sequence_name := "Seq",
    status := "PASS", startMicro := microOfYHMS 2024 13 5 0,
    endMicro := microOfYHMS 2024 13 5 0 + 45000000 }

/-- The document `rowsOk` without its `Execution Time` row. -/
def rowsNoExec : List (List String) :=
  [["Station ID", "S1"], ["Serial Number", "SN"], ["Sequence Name", "Seq"],
   ["UUT Result", "Passed"], ["Date", "Fri 2024"], ["Time", "13.05.00"]]

/-- The record `html_to_record` computes from `rowsNoExec`. -/
def recNoExec : Record :=
  { station_id := "S1", serial_number := "SN", sequence_name := "Seq",
    status := "PASS", startMicro := microOfYHMS 2024 13 5 0,
    endMicro := microOfYHMS 2024 13 5 0 }

/-- The spec's round-trip test input: `Date="Friday 2024-05-01"`,
`Time="13.05.00"`, `Execution Time="45 seconds"`. -/
def rowsDashDate : List (List String) :=
  [["Station ID", "S1"], ["Serial Number", "SN"], ["Sequence Name", "Seq"],
   ["UUT Result", "Passed"], ["Date", "Friday 2024-05-01"], ["Time", "13.05.00"],
   ["Execution Time", "45 seconds"]]

/-- All six required fields present but `Date` mapped to the empty string. -/
def rowsEmptyDate : List (List String) :=
  [["Station ID", "S1"], ["Serial Number", "SN"], ["Sequence Name", "Seq"],
   ["UUT Result", "Passed"], ["Date", ""], ["Time", "13.05.00"]]

/-- A well-formed document whose `Execution Time` value is whitespace-only. -/
def rowsBlankExec : List (List String) :=
  [["Station ID", "S1"], ["Serial Number", "SN"], ["Sequence Name", "Seq"],
   ["UUT Result", "Passed"], ["Date", "Fri 2024"], ["Time", "13.05.00"],
   ["Execution Time", " "]]

/-- An environment in which every filesystem operation succeeds and the
source document is `rowsOk`. -/
def envOk : Env :=
  { dir1 := "/data/in/report.html", dir2 := "/out", archive := none,
    outputDirExists := true, createOutputDirOk := true,
    readResult := some "<html>r</html>", rows := rowsOk,
    writeOk := true, archiveDirExists := true, createArchiveDirOk := true,
    archiveTargetExists := false, removeOk := true, moveOk := true }

/-- Like `envOk`, but the archive directory is absent and cannot be
created. -/
def envNoArchiveDir : Env :=
  { envOk with archiveDirExists := false, createArchiveDirOk := false }

/-- Like `envOk`, but the source file is missing and the output directory
does not exist yet (its creation succeeds). -/
def envMissingSource : Env :=
  { envOk with outputDirExists := false, readResult := none }

/-- Like `envOk`, but the document has an empty `Date` value. -/
def envEmptyDate : Env :=
  { envOk with rows := rowsEmptyDate }

/-- Modelled from the spec (§3 Date/Time parsing rule), written from its
words: take the last whitespace-delimited token of the Date field,
concatenate it with the Time field in which periods are replaced by
colons, and parse the result with the naive strptime pattern
`'%Y %H:%M:%S'`; no timezone conversion is performed (the value is the
naive timestamp itself). -/
def specStartTime (dateField timeField : String) : Option ℤ :=
  match (pyWords dateField).getLast? with
  | none => none
  | some t => strptimeMicro (t ++ " " ++ mapDotsToColons timeField)

/-- The archive location claim C5 describes: the fixed name `arhiiv`
located two levels up from the source file's directory (that directory is
`posixDirname dir1`, so the described location is `dirname` applied three
times to the file path, joined with `arhiiv`). -/
def claimedArchiveDir (dir1 : String) : String :=
  posixJoin (posixDirname (posixDirname (posixDirname dir1))) dir_for_archiv

/-- C9 (confirmed): for every valid `Record`, the produced XML document has
root element `UGSTesterCom` with the fixed attributes, and its children in
the fixed order Barcode, TesterName, StationName, Station, TestProgram,
Status, StartTime, EndTime, TestSteps, where Barcode = serial_number,
TesterName = StationName = Station = station_id, TestProgram =
sequence_name, StartTime and EndTime are the ISO-8601 renderings of the
naive timestamps (`pyIsoformat` formats a naive datetime and never appends
a timezone offset), and TestSteps has no attributes, no children and no
text. -/
theorem c9_xml_document_shape (r : Record) :
    buildXml r = {
      tag := "UGSTesterCom",
      attrs := [("xmlns:xsi", "http://www.w3.org/2001/XMLSchema-instance"),
                ("xmlns:xsd", "http://www.w3.org/2001/XMLSchema"),
                ("Version", "2.0"),
                ("TesterType", "KONE FCT"),
                ("Testerlocation", "en-US")],
      text := none,
      children := [
        ⟨"Barcode", [], some r.serial_number, []⟩,
        ⟨"TesterName", [], some r.station_id, []⟩,
        ⟨"StationName", [], some r.station_id, []⟩,
        ⟨"Station", [], some r.station_id, []⟩,
        ⟨"TestProgram", [], some r.sequence_name, []⟩,
        ⟨"Status", [], some r.status, []⟩,
        ⟨"StartTime", [], some (pyIsoformat r.startMicro), []⟩,
        ⟨"EndTime", [], some (pyIsoformat r.endMicro), []⟩,
        ⟨"TestSteps", [], none, []⟩] } := rfl

/-- C4 counterexample: on the two-cell row `("A:B", "x")` — a key with an
interior colon and no trailing colon — the claim predicts the key is left
unchanged, but the extractor stores it under `"AB"` and no entry exists
under `"A:B"`. -/
theorem c4_counterexample :
    dictGet (extractFields [["A:B", "x"]]) "A:B" = none ∧
    dictGet (extractFields [["A:B", "x"]]) "AB" = some "x" := by decide

/-- C4 (amended): for every table-row with exactly two cells, the
extractor maps the first cell's trimmed text with ALL colons removed (not
only a trailing one) to the second cell's trimmed text; in particular
`"Station ID:"` yields the key `"Station ID"`. -/
theorem c4_extractor_key_rule :
    (∀ (d : Dict) (c0 c1 : String),
      extractRow d [c0, c1] = dictInsert d (removeColons (pyStrip c0)) (pyStrip c1)) ∧
    removeColons "Station ID:" = "Station ID" ∧
    dictGet (extractFields [["Station ID:", "S1"]]) "Station ID" = some "S1" :=
  ⟨fun _ _ _ => rfl, by decide, by decide⟩

/-- C5 counterexample: for the source file `/a/b/c/f.html` the program
derives the archive directory `/a/b/arhiiv`, while the location described
by the claim (`arhiiv` two levels up from the source file's directory
`/a/b/c`) is `/a/arhiiv`. -/
theorem c5_counterexample :
    resolveArchiveDir none "/a/b/c/f.html" = "/a/b/arhiiv" ∧
    claimedArchiveDir "/a/b/c/f.html" = "/a/arhiiv" ∧
    resolveArchiveDir none "/a/b/c/f.html" ≠ claimedArchiveDir "/a/b/c/f.html" := by
  refine ⟨by decide, by decide, by decide⟩

/-- C5 (amended): when the archive option is omitted the archive directory
is `dirname(dirname(dir1))` joined with the fixed name `arhiiv` — i.e.
`arhiiv` one level up from the source file's directory, a sibling of the
source file's directory (they share the same parent, as the last conjunct
illustrates). -/
theorem c5_default_archive_location :
    (∀ dir1 : String,
      resolveArchiveDir none dir1 =
        posixJoin (posixDirname (posixDirname dir1)) dir_for_archiv) ∧
    resolveArchiveDir none "/a/b/c/f.html" = "/a/b/arhiiv" ∧
    posixDirname (resolveArchiveDir none "/a/b/c/f.html") =
      posixDirname (posixDirname "/a/b/c/f.html") :=
  ⟨fun _ => rfl, by decide, by decide⟩

/-- C2 counterexample: with `Date="Friday 2024-05-01"` and
`Time="13.05.00"` (all other required fields present, `Execution
Time="45 seconds"`), the composite string does NOT parse under
`'%Y %H:%M:%S'` (`%Y` matches exactly four digits, so the token
`2024-05-01` cannot match), and the conversion does not succeed — there is
no `end_time` at all. -/
theorem c2_counterexample :
    strptimeMicro "2024-05-01 13:05:00" = none ∧
    convIsOk (html_to_record rowsDashDate) = false := by
  refine ⟨by decide, by decide⟩

/-- C2 (amended): for that input the composite date/time string is indeed
`"2024-05-01 13:05:00"`, but it FAILS to parse with `'%Y %H:%M:%S'`, so
`html_to_xml` returns `None` and the run exits with code 3; no start or
end time is computed. -/
theorem c2_round_trip_input_fails :
    (pyWords "Friday 2024-05-01").getLast? = some "2024-05-01" ∧
    mapDotsToColons "13.05.00" = "13:05:00" ∧
    strptimeMicro "2024-05-01 13:05:00" = none ∧
    html_to_record rowsDashDate = Conv.err ConvErr.parseError ∧
    (mainRun { envOk with rows := rowsDashDate }).1 =
      MainOutcome.exited ExitCode.PARSE_XML_ERROR ∧
    ExitCode.PARSE_XML_ERROR.toCode = 3 := by
  refine ⟨by decide, by decide, by decide, by decide, by decide, by decide⟩

/-- C10 (confirmed): with all six required keys present, a `Date` mapped
to the empty string makes `date_str.split()[-1]` raise an uncaught
`IndexError`, and an `Execution Time` mapped to a whitespace-only string
makes `data.get('Execution Time', '0 seconds').split()[0]` raise an
uncaught `IndexError`; the run then terminates by exception propagation,
not with any of the defined exit codes. -/
theorem c10_index_error_paths :
    html_to_record rowsEmptyDate = Conv.exnIndexError ∧
    html_to_record rowsBlankExec = Conv.exnIndexError ∧
    (mainRun envEmptyDate).1 = MainOutcome.uncaughtException ∧
    (∀ c : ExitCode, (mainRun envEmptyDate).1 ≠ MainOutcome.exited c) := by
  refine ⟨by decide, by decide, by decide, ?_⟩
  intro c
  cases c <;> decide

/-- C1 counterexample: in a run that reaches the archiving stage with the
archive directory absent and uncreatable, the program exits with code 1
(`CREATE_DIR_ERROR`), not code 5 (`ARCHIVE_ERROR`) as the claim states. -/
theorem c1_counterexample :
    (mainRun envNoArchiveDir).1 = MainOutcome.exited ExitCode.CREATE_DIR_ERROR ∧
    (mainRun envNoArchiveDir).1 ≠ MainOutcome.exited ExitCode.ARCHIVE_ERROR ∧
    ExitCode.CREATE_DIR_ERROR.toCode = 1 ∧
    ExitCode.ARCHIVE_ERROR.toCode = 5 := by
  refine ⟨by decide, by decide, by decide, by decide⟩

/-- C1 (amended): in every run that reaches the archiving stage, failure
to create an absent archive directory exits with code 1
(`CREATE_DIR_ERROR`); exit code 5 (`ARCHIVE_ERROR`) covers only the
remove-existing and move failures. -/
theorem c1_archive_failure_exit_codes :
    (∀ env : Env,
      (env.outputDirExists || env.createOutputDirOk) = true →
      (read_html_file env).isSome = true →
      convIsOk (html_to_xml env.rows) = true →
      env.writeOk = true →
      env.archiveDirExists = false →
      env.createArchiveDirOk = false →
      (mainRun env).1 = MainOutcome.exited ExitCode.CREATE_DIR_ERROR ∧
      ExitCode.CREATE_DIR_ERROR.toCode = 1) ∧
    (∀ env : Env,
      (env.outputDirExists || env.createOutputDirOk) = true →
      (read_html_file env).isSome = true →
      convIsOk (html_to_xml env.rows) = true →
      env.writeOk = true →
      (env.archiveDirExists || env.createArchiveDirOk) = true →
      env.archiveTargetExists = true →
      env.removeOk = false →
      (mainRun env).1 = MainOutcome.exited ExitCode.ARCHIVE_ERROR ∧
      ExitCode.ARCHIVE_ERROR.toCode = 5) ∧
    (∀ env : Env,
      (env.outputDirExists || env.createOutputDirOk) = true →
      (read_html_file env).isSome = true →
      convIsOk (html_to_xml env.rows) = true →
      env.writeOk = true →
      (env.archiveDirExists || env.createArchiveDirOk) = true →
      (env.archiveTargetExists = false ∨ env.removeOk = true) →
      env.moveOk = false →
      (mainRun env).1 = MainOutcome.exited ExitCode.ARCHIVE_ERROR) := by
  refine ⟨?_, ?_, ?_⟩
  · intro env h1 h2 h3 h4 h5 h6
    obtain ⟨c, hc⟩ := Option.isSome_iff_exists.mp h2
    have h0 : (!env.outputDirExists && !env.createOutputDirOk) = false := by
      cases ha : env.outputDirExists <;> cases hb : env.createOutputDirOk <;> simp_all
    cases hx : html_to_xml env.rows with
    | ok x => exact ⟨by simp [mainRun, h0, hc, hx, h4, h5, h6], rfl⟩
    | err e =>
      rw [hx] at h3
      simp [convIsOk] at h3
    | exnIndexError =>
      rw [hx] at h3
      simp [convIsOk] at h3
  · intro env h1 h2 h3 h4 h5 h6 h7
    obtain ⟨c, hc⟩ := Option.isSome_iff_exists.mp h2
    have h0 : (!env.outputDirExists && !env.createOutputDirOk) = false := by
      cases ha : env.outputDirExists <;> cases hb : env.createOutputDirOk <;> simp_all
    have ha0 : (!env.archiveDirExists && !env.createArchiveDirOk) = false := by
      cases ha : env.archiveDirExists <;> cases hb : env.createArchiveDirOk <;> simp_all
    cases hx : html_to_xml env.rows with
    | ok x => exact ⟨by simp [mainRun, h0, hc, hx, h4, ha0, h6, h7], rfl⟩
    | err e =>
      rw [hx] at h3
      simp [convIsOk] at h3
    | exnIndexError =>
      rw [hx] at h3
      simp [convIsOk] at h3
  · intro env h1 h2 h3 h4 h5 h6 h7
    obtain ⟨c, hc⟩ := Option.isSome_iff_exists.mp h2
    have h0 : (!env.outputDirExists && !env.createOutputDirOk) = false := by
      cases ha : env.outputDirExists <;> cases hb : env.createOutputDirOk <;> simp_all
    have ha0 : (!env.archiveDirExists && !env.createArchiveDirOk) = false := by
      cases ha : env.archiveDirExists <;> cases hb : env.createArchiveDirOk <;> simp_all
    cases hx : html_to_xml env.rows with
    | ok x =>
      rcases h6 with h6 | h6 <;> simp [mainRun, h0, hc, hx, h4, ha0, h6, h7]
    | err e =>
      rw [hx] at h3
      simp [convIsOk] at h3
    | exnIndexError =>
      rw [hx] at h3
      simp [convIsOk] at h3

/-- C1 witness: the amended theorem applied to the concrete environment
`envNoArchiveDir`. -/
theorem c1_witness :
    (mainRun envNoArchiveDir).1 = MainOutcome.exited ExitCode.CREATE_DIR_ERROR ∧
    ExitCode.CREATE_DIR_ERROR.toCode = 1 :=
  c1_archive_failure_exit_codes.1 envNoArchiveDir (by decide) (by decide) (by decide)
    (by decide) (by decide) (by decide)

/-- C3 (confirmed): (1) whenever the conversion succeeds, `start_time` is
exactly the value of the spec's rule — last whitespace-delimited token of
the `Date` field, a space, the `Time` field with periods replaced by
colons, parsed naively with `'%Y %H:%M:%S'` and no timezone conversion;
(2) when that rule's parse fails (and the earlier steps succeed), the
conversion returns `None` (a caught `ValueError`). -/
theorem c3_start_time_rule :
    (∀ (rows : List (List String)) (r : Record),
      html_to_record rows = Conv.ok r →
      specStartTime (getField (extractFields rows) "Date")
        (getField (extractFields rows) "Time") = some r.startMicro) ∧
    (∀ (rows : List (List String)) (execTok t : String) (rest : List String),
      pyWords (getFieldD (extractFields rows) "Execution Time" "0 seconds") = execTok :: rest →
      requiredFields.find? (fun g => !dictContains (extractFields rows) g) = none →
      (pyFloat execTok).isSome = true →
      (pyWords (getField (extractFields rows) "Date")).getLast? = some t →
      strptimeMicro (t ++ " " ++ mapDotsToColons (getField (extractFields rows) "Time")) = none →
      html_to_record rows = Conv.err ConvErr.parseError) := by
  constructor
  · intro rows r hok
    simp only [html_to_record] at hok
    split at hok
    · simp at hok
    · split at hok
      · simp at hok
      · split at hok
        · simp at hok
        · split at hok
          · simp at hok
          · rename_i lastTok hlast
            split at hok
            · simp at hok
            · rename_i start hstrp
              rw [Conv.ok.injEq] at hok
              subst hok
              simp only [specStartTime, hlast, hstrp]
  · intro rows execTok t rest hw hf hx hlast hstrp
    obtain ⟨d, hd⟩ := Option.isSome_iff_exists.mp hx
    simp [html_to_record, hw, hf, hd, hlast, hstrp]

/-- C3 witness: the rule evaluated on the concrete document `rowsOk`. -/
theorem c3_witness :
    specStartTime (getField (extractFields rowsOk) "Date")
      (getField (extractFields rowsOk) "Time") = some recOk.startMicro :=
  c3_start_time_rule.1 rowsOk recOk (by decide)

/-- C6 counterexample: with the source file missing and the output
directory absent but creatable, the run exits with code 2 — yet the
output directory HAS been created before the reader ran, contradicting
the claim that no output directory is created when the Input Reader
fails. -/
theorem c6_counterexample :
    (mainRun envMissingSource).1 = MainOutcome.exited ExitCode.READ_HTML_ERROR ∧
    (mainRun envMissingSource).2 = [Event.createdOutputDir "/out"] := by
  refine ⟨by decide, by decide⟩

/-- C6 (amended): the stages run in the order output-directory setup,
read, convert, write, archive, and any failure short-circuits the
remainder; when the Input Reader fails the run exits with code 2 and
performs no write and no archiving — but output-directory creation
precedes reading, so the only event that may already have happened is the
creation of the output directory. -/
theorem c6_reader_failure_short_circuits (env : Env)
    (h1 : (env.outputDirExists || env.createOutputDirOk) = true)
    (h2 : read_html_file env = none) :
    (mainRun env).1 = MainOutcome.exited ExitCode.READ_HTML_ERROR ∧
    (mainRun env).2 =
      (if env.outputDirExists then [] else [Event.createdOutputDir env.dir2]) := by
  have h0 : (!env.outputDirExists && !env.createOutputDirOk) = false := by
    cases ha : env.outputDirExists <;> cases hb : env.createOutputDirOk <;> simp_all
  constructor <;> simp [mainRun, h0, h2]

/-- C6 witness: the amended theorem applied to `envMissingSource`. -/
theorem c6_witness :
    (mainRun envMissingSource).1 = MainOutcome.exited ExitCode.READ_HTML_ERROR ∧
    (mainRun envMissingSource).2 =
      (if envMissingSource.outputDirExists then []
       else [Event.createdOutputDir envMissingSource.dir2]) :=
  c6_reader_failure_short_circuits envMissingSource (by decide) (by decide)

/-- C7 counterexample: the RawFields `{"Execution Time": ""}` is missing
all six required keys, yet the conversion raises an uncaught `IndexError`
(line 89 runs before the validation loop) instead of failing validation
with the first missing key. -/
theorem c7_counterexample :
    html_to_record [["Execution Time", ""]] = Conv.exnIndexError ∧
    html_to_record [["Execution Time", ""]] ≠
      Conv.err (ConvErr.missingField "Station ID") := by
  refine ⟨by decide, by decide⟩

/-- C7 (amended): provided the `Execution Time` value (or its default
`"0 seconds"`) splits into at least one token, a RawFields missing at
least one required key fails validation reporting exactly the first
missing key in the fixed order Station ID, Serial Number, Sequence Name,
UUT Result, Date, Time (`find?` on that list), without aggregation; a
`None` conversion result makes the run exit with code 3. -/
theorem c7_first_missing_field :
    (∀ (rows : List (List String)) (f : String),
      pyWords (getFieldD (extractFields rows) "Execution Time" "0 seconds") ≠ [] →
      requiredFields.find? (fun g => !dictContains (extractFields rows) g) = some f →
      html_to_record rows = Conv.err (ConvErr.missingField f)) ∧
    (∀ (env : Env) (e : ConvErr),
      (env.outputDirExists || env.createOutputDirOk) = true →
      (read_html_file env).isSome = true →
      html_to_xml env.rows = Conv.err e →
      (mainRun env).1 = MainOutcome.exited ExitCode.PARSE_XML_ERROR ∧
      ExitCode.PARSE_XML_ERROR.toCode = 3) := by
  constructor
  · intro rows f hw hf
    simp only [html_to_record]
    split
    · rename_i h
      exact absurd h hw
    · simp [hf]
  · intro env e h1 h2 h3
    obtain ⟨c, hc⟩ := Option.isSome_iff_exists.mp h2
    have h0 : (!env.outputDirExists && !env.createOutputDirOk) = false := by
      cases ha : env.outputDirExists <;> cases hb : env.createOutputDirOk <;> simp_all
    exact ⟨by simp [mainRun, h0, hc, h3], rfl⟩

/-- C7 witness: a document providing only `Serial Number`; the first
missing key in the fixed order is `Station ID`. -/
theorem c7_witness :
    html_to_record [["Serial Number", "SN"]] =
      Conv.err (ConvErr.missingField "Station ID") :=
  c7_first_missing_field.1 [["Serial Number", "SN"]] "Station ID" (by decide) (by decide)

/-- C8 (confirmed): when all six required fields are present and
`Execution Time` is absent, the default `"0 seconds"` is used, its leading
token parses to the float 0.0, and therefore `end_time` equals
`start_time` (also after ISO-8601 rendering). -/
theorem c8_no_exec_time_end_equals_start :
    pyFloat "0" = some ⟨0, 0⟩ ∧
    (∀ (rows : List (List String)) (r : Record),
      dictGet (extractFields rows) "Execution Time" = none →
      html_to_record rows = Conv.ok r →
      r.endMicro = r.startMicro ∧ pyIsoformat r.endMicro = pyIsoformat r.startMicro) := by
  refine ⟨by decide, ?_⟩
  intro rows r hexec hok
  have h1 : getFieldD (extractFields rows) "Execution Time" "0 seconds" = "0 seconds" := by
    unfold getFieldD
    rw [hexec]
    rfl
  have h2 : pyWords "0 seconds" = ["0", "seconds"] := by decide
  have h3 : pyFloat "0" = some ⟨0, 0⟩ := by decide
  simp only [html_to_record, h1, h2, h3] at hok
  split at hok
  · simp at hok
  · split at hok
    · simp at hok
    · split at hok
      · simp at hok
      · rw [Conv.ok.injEq] at hok
        subst hok
        have h4 : timedeltaMicro ⟨0, 0⟩ = 0 := by decide
        refine ⟨by simp [h4], by simp [h4]⟩

/-- C8 witness: the theorem applied to the concrete document
`rowsNoExec`. -/
theorem c8_witness :
    recNoExec.endMicro = recNoExec.startMicro :=
  (c8_no_exec_time_end_equals_start.2 rowsNoExec recNoExec (by decide) (by decide)).1
